import Mathlib

/-!
Shallow embedding of `netbox_v32_migration.py` (netbox-community/migration-scripts).

The file defines the database state visible to the two migration scripts
(`MigrateSiteContactsScript` and `MigrateSiteASNsScript`) and embeds their
`run` methods as pure state-transformers.  Django ORM queries are modelled as
list operations over that state:

* `Site.objects.exclude(contact_name='')`    → `List.filter` on `contact_name`
* `Site.objects.filter(asn__isnull=False)`   → `List.filter` on `asn.isSome`
* `Contact.objects.filter(**attrs).first()`  → `List.find?` with per-field equality
* `ASN.objects.filter(asn=n).first()`        → `List.find?` on the AS number
* `site.contacts.filter(contact=c).exists()` → `List.any` over assignments
* `asn in site.asns.all()` / `site.asns.add` → membership / append on the m2m rows
* `Site.objects.filter(pk=..).update(...)`   → `List.map` rewriting the matching rows
* auto-increment primary keys               → explicit `nextContactId` / `nextASNId`

Log calls are recorded as an event trace (one constructor per `log_*` call
site), since several spec claims talk about warnings and info logs.
The queryset iterated by each loop is the snapshot taken at the start of the
run, matching Django's queryset-caching behaviour (`if not sites` evaluates
the queryset before the loop); in-loop `update` calls change the stored rows
but not the snapshot objects.
-/

/-- A row of the `Site` table, restricted to the fields the scripts read or
write.  `asn` is the legacy nullable AS-number column. -/
structure SiteRec where
  pk : Nat
  contact_name : String
  contact_phone : String
  contact_email : String
  asn : Option Nat
  deriving DecidableEq, Repr

/-- A row of the `Contact` table.  `phone`/`email` are blank-capable char
columns, stored as `""` when unset (as Django does for `blank=True` fields). -/
structure ContactRec where
  id : Nat
  name : String
  phone : String
  email : String
  deriving DecidableEq, Repr

/-- A `ContactAssignment` row linking a site (by pk) to a contact (by id),
stamped with the operator-supplied role and priority. -/
structure AssignmentRec where
  site_pk : Nat
  contact_id : Nat
  role : Nat
  priority : String
  deriving DecidableEq, Repr

/-- A row of the `ASN` table: AS number plus the RIR reference. -/
structure ASNRec where
  id : Nat
  asn : Nat
  rir : Nat
  deriving DecidableEq, Repr

/-- One row of the `Site.asns` many-to-many through table. -/
structure SiteASNRec where
  site_pk : Nat
  asn_id : Nat
  deriving DecidableEq, Repr

/-- The database state the two scripts operate on. -/
structure DB where
  sites : List SiteRec
  contacts : List ContactRec
  assignments : List AssignmentRec
  asns : List ASNRec
  siteASNLinks : List SiteASNRec
  nextContactId : Nat
  nextASNId : Nat
  deriving DecidableEq, Repr

/-- Severity levels of the script logging API. -/
inductive LogLevel where
  | warning | info | success | debug
  deriving DecidableEq, Repr

/-- One event per `log_*` call site in the two scripts, with the dynamic
payload that the message interpolates. -/
inductive Ev where
  | contactsWarnNoSites
  | contactsInfoFound (n : Nat)
  | contactsCreating (nm : String)
  | contactsSkip
  | contactsAssigning
  | contactsClearing
  | contactsSummaryCreated (n : Nat)
  | contactsSummaryAssigned (n : Nat)
  | asnsWarnNoSites
  | asnsInfoFound (n : Nat)
  | asnsCreating (n : Nat)
  | asnsSkip
  | asnsAssigning
  | asnsClearing
  | asnsSummaryCreated (n : Nat)
  | asnsSummaryAssigned (n : Nat)
  deriving DecidableEq, Repr

/-- Severity of each logged event, matching the `log_warning` / `log_info` /
`log_success` / `log_debug` call used in the source. -/
def Ev.level : Ev → LogLevel
  | .contactsWarnNoSites => .warning
  | .contactsInfoFound _ => .info
  | .contactsCreating _ => .success
  | .contactsSkip => .info
  | .contactsAssigning => .success
  | .contactsClearing => .debug
  | .contactsSummaryCreated _ => .success
  | .contactsSummaryAssigned _ => .success
  | .asnsWarnNoSites => .warning
  | .asnsInfoFound _ => .info
  | .asnsCreating _ => .success
  | .asnsSkip => .info
  | .asnsAssigning => .success
  | .asnsClearing => .debug
  | .asnsSummaryCreated _ => .success
  | .asnsSummaryAssigned _ => .success

/-- State threaded through a run: the database, the two counters of the
script (`contacts_created`/`assignments_created`, resp. `asns_created`/
`asns_assigned`), and the log trace. -/
structure RunState where
  db : DB
  created : Nat
  linked : Nat
  logs : List Ev
  deriving DecidableEq, Repr

/-- The `attrs` dict built by `MigrateSiteContactsScript._get_contact_data`:
`name` is always a key; `phone`/`email` are keys only when present. -/
structure ContactData where
  name : String
  phone : Option String
  email : Option String
  deriving DecidableEq, Repr

/-- Python's `str.strip()`: drop leading and trailing whitespace.  Defined
by structural recursion over the character list so that concrete instances
reduce inside the kernel (`String.trim` is defined by well-founded recursion
on byte positions, which kernel reduction cannot unfold). -/
def pyStrip (s : String) : String :=
  ⟨((s.data.dropWhile Char.isWhitespace).reverse.dropWhile Char.isWhitespace).reverse⟩

/-- `MigrateSiteContactsScript._get_contact_data`: strip the three legacy
fields and keep only the non-empty ones (name always). -/
def getContactData (site : SiteRec) : ContactData :=
  let name := pyStrip site.contact_name
  let phone := pyStrip site.contact_phone
  let email := pyStrip site.contact_email
  let attrs : ContactData := { name := name, phone := none, email := none }
  let attrs := if phone != "" then { attrs with phone := some phone } else attrs
  if email != "" then { attrs with email := some email } else attrs

/-- The row predicate of `Contact.objects.filter(**contact_data)`: equality on
exactly the keys present in the dict; absent keys are unconstrained. -/
def contactKeyMatches (c : ContactRec) (d : ContactData) : Bool :=
  c.name == d.name
    && (match d.phone with | none => true | some p => c.phone == p)
    && (match d.email with | none => true | some e => c.email == e)

/-- `Contact.objects.filter(**contact_data).first()`. -/
def contactFound (db : DB) (site : SiteRec) : Option ContactRec :=
  db.contacts.find? (fun c => contactKeyMatches c (getContactData site))

/-- Row predicate for a (site, contact) assignment pair. -/
def assignPairP (pk cid : Nat) (a : AssignmentRec) : Bool :=
  a.site_pk == pk && a.contact_id == cid

/-- `site.contacts.filter(contact=contact).exists()`: is there already an
assignment row for this (site, contact) pair? -/
def hasAssignment (db : DB) (pk cid : Nat) : Bool :=
  db.assignments.any (assignPairP pk cid)

/-- The condition under which an iteration of the contact script takes the
`continue` (skip) branch: the lookup found a contact and an assignment for
the pair already exists. -/
def contactSkips (db : DB) (site : SiteRec) : Bool :=
  match contactFound db site with
  | none => false
  | some c => hasAssignment db site.pk c.id

/-- `Site.objects.filter(pk=pk).update(contact_name='', contact_phone='',
contact_email='')`. -/
def clearContactFields (sites : List SiteRec) (pk : Nat) : List SiteRec :=
  sites.map (fun t =>
    if t.pk == pk then
      { t with contact_name := "", contact_phone := "", contact_email := "" }
    else t)

/-- The script variables of `MigrateSiteContactsScript` (`data` dict). -/
structure ContactParams where
  contact_role : Nat
  contact_priority : String
  clear_site_fields : Bool
  deriving DecidableEq, Repr

/-- One iteration of the `for site in sites` loop of
`MigrateSiteContactsScript.run`. -/
def contactStep (p : ContactParams) (st : RunState) (site : SiteRec) : RunState :=
  let d := getContactData site
  match contactFound st.db site with
  | none =>
    -- create a new Contact, then fall through to the assignment
    let c : ContactRec :=
      { id := st.db.nextContactId, name := d.name,
        phone := d.phone.getD "", email := d.email.getD "" }
    let a : AssignmentRec :=
      { site_pk := site.pk, contact_id := c.id,
        role := p.contact_role, priority := p.contact_priority }
    let db1 : DB :=
      { st.db with contacts := st.db.contacts ++ [c],
                   nextContactId := st.db.nextContactId + 1,
                   assignments := st.db.assignments ++ [a] }
    let db2 : DB :=
      if p.clear_site_fields then
        { db1 with sites := clearContactFields db1.sites site.pk }
      else db1
    { db := db2, created := st.created + 1, linked := st.linked + 1,
      logs := st.logs ++ [Ev.contactsCreating d.name, Ev.contactsAssigning]
        ++ (if p.clear_site_fields then [Ev.contactsClearing] else []) }
  | some c =>
    if hasAssignment st.db site.pk c.id then
      -- assignment already exists: log and continue
      { st with logs := st.logs ++ [Ev.contactsSkip] }
    else
      let a : AssignmentRec :=
        { site_pk := site.pk, contact_id := c.id,
          role := p.contact_role, priority := p.contact_priority }
      let db1 : DB := { st.db with assignments := st.db.assignments ++ [a] }
      let db2 : DB :=
        if p.clear_site_fields then
          { db1 with sites := clearContactFields db1.sites site.pk }
        else db1
      { db := db2, created := st.created, linked := st.linked + 1,
        logs := st.logs ++ [Ev.contactsAssigning]
          ++ (if p.clear_site_fields then [Ev.contactsClearing] else []) }

/-- `Site.objects.exclude(contact_name='')`. -/
def selectedContactSites (db : DB) : List SiteRec :=
  db.sites.filter (fun s => s.contact_name != "")

/-- `MigrateSiteContactsScript.run`. -/
def contactsRun (p : ContactParams) (db : DB) : RunState :=
  let sites := selectedContactSites db
  if sites.isEmpty then
    { db := db, created := 0, linked := 0, logs := [Ev.contactsWarnNoSites] }
  else
    let st := sites.foldl (contactStep p)
      { db := db, created := 0, linked := 0,
        logs := [Ev.contactsInfoFound sites.length] }
    { st with logs := st.logs ++
        [Ev.contactsSummaryCreated st.created, Ev.contactsSummaryAssigned st.linked] }

/-- `ASN.objects.filter(asn=n).first()`. -/
def asnFound (db : DB) (n : Nat) : Option ASNRec :=
  db.asns.find? (fun a => a.asn == n)

/-- Row predicate for a (site, ASN) m2m pair. -/
def linkPairP (pk aid : Nat) (l : SiteASNRec) : Bool :=
  l.site_pk == pk && l.asn_id == aid

/-- `asn in site.asns.all()`: is there an m2m row for this (site, asn) pair? -/
def hasSiteASNLink (db : DB) (pk aid : Nat) : Bool :=
  db.siteASNLinks.any (linkPairP pk aid)

/-- The condition under which an iteration of the ASN script takes the
`continue` (skip) branch. -/
def asnSkips (db : DB) (site : SiteRec) : Bool :=
  match site.asn with
  | none => false
  | some n =>
    match asnFound db n with
    | none => false
    | some a => hasSiteASNLink db site.pk a.id

/-- `Site.objects.filter(pk=pk).update(asn=None)`. -/
def clearASNField (sites : List SiteRec) (pk : Nat) : List SiteRec :=
  sites.map (fun t => if t.pk == pk then { t with asn := none } else t)

/-- The script variables of `MigrateSiteASNsScript` (`data` dict). -/
structure ASNParams where
  asn_rir : Nat
  clear_site_field : Bool
  deriving DecidableEq, Repr

/-- One iteration of the `for site in sites` loop of
`MigrateSiteASNsScript.run`.  The `none` case of `site.asn` is unreachable
from the run (the selector keeps only sites with a legacy ASN). -/
def asnStep (q : ASNParams) (st : RunState) (site : SiteRec) : RunState :=
  match site.asn with
  | none => st
  | some n =>
    match asnFound st.db n with
    | none =>
      let a : ASNRec := { id := st.db.nextASNId, asn := n, rir := q.asn_rir }
      let lk : SiteASNRec := { site_pk := site.pk, asn_id := a.id }
      let db1 : DB :=
        { st.db with asns := st.db.asns ++ [a],
                     nextASNId := st.db.nextASNId + 1,
                     siteASNLinks := st.db.siteASNLinks ++ [lk] }
      let db2 : DB :=
        if q.clear_site_field then
          { db1 with sites := clearASNField db1.sites site.pk }
        else db1
      { db := db2, created := st.created + 1, linked := st.linked + 1,
        logs := st.logs ++ [Ev.asnsCreating n, Ev.asnsAssigning]
          ++ (if q.clear_site_field then [Ev.asnsClearing] else []) }
    | some a =>
      if hasSiteASNLink st.db site.pk a.id then
        { st with logs := st.logs ++ [Ev.asnsSkip] }
      else
        let lk : SiteASNRec := { site_pk := site.pk, asn_id := a.id }
        let db1 : DB := { st.db with siteASNLinks := st.db.siteASNLinks ++ [lk] }
        let db2 : DB :=
          if q.clear_site_field then
            { db1 with sites := clearASNField db1.sites site.pk }
          else db1
        { db := db2, created := st.created, linked := st.linked + 1,
          logs := st.logs ++ [Ev.asnsAssigning]
            ++ (if q.clear_site_field then [Ev.asnsClearing] else []) }

/-- `Site.objects.filter(asn__isnull=False)`. -/
def selectedASNSites (db : DB) : List SiteRec :=
  db.sites.filter (fun s => s.asn.isSome)

/-- `MigrateSiteASNsScript.run`. -/
def asnsRun (q : ASNParams) (db : DB) : RunState :=
  let sites := selectedASNSites db
  if sites.isEmpty then
    { db := db, created := 0, linked := 0, logs := [Ev.asnsWarnNoSites] }
  else
    let st := sites.foldl (asnStep q)
      { db := db, created := 0, linked := 0,
        logs := [Ev.asnsInfoFound sites.length] }
    { st with logs := st.logs ++
        [Ev.asnsSummaryCreated st.created, Ev.asnsSummaryAssigned st.linked] }

/-- The attribute values of the `Contact` row that `Contact(**contact_data)`
would create from the key `d`: absent keys fall back to the column default
`""`. -/
def createdContactP (d : ContactData) (c : ContactRec) : Bool :=
  c.name == d.name && c.phone == d.phone.getD "" && c.email == d.email.getD ""

/-- C7: the derived contact key keeps the trimmed `contact_name`
unconditionally (even when it trims to the empty string) and includes the
trimmed `contact_phone` / `contact_email` exactly when they are non-empty
after trimming; no further transformation is applied to any of the three
values. -/
theorem contact_key_derivation (site : SiteRec) :
    (getContactData site).name = pyStrip site.contact_name ∧
    (getContactData site).phone =
      (if pyStrip site.contact_phone = "" then none
       else some (pyStrip site.contact_phone)) ∧
    (getContactData site).email =
      (if pyStrip site.contact_email = "" then none
       else some (pyStrip site.contact_email)) := by
  unfold getContactData
  by_cases hp : pyStrip site.contact_phone = "" <;>
    by_cases he : pyStrip site.contact_email = "" <;>
      simp [hp, he]

/-- C4: the canonical-contact lookup constrains exactly the fields present in
the derived key: a stored contact matches iff its name equals the key's name
and its phone/email equal the key's phone/email whenever those are present in
the key; fields absent from the key are unconstrained, so no full-record
equality is required.  Moreover every contact returned by the lookup used in
the run satisfies precisely this predicate. -/
theorem lookup_constrains_only_key_fields (c : ContactRec) (d : ContactData)
    (db0 : DB) (site0 : SiteRec) (c2 : ContactRec)
    (hf : contactFound db0 site0 = some c2) :
    (contactKeyMatches c d = true ↔
      (c.name = d.name ∧ (∀ p, d.phone = some p → c.phone = p) ∧
        (∀ e, d.email = some e → c.email = e))) ∧
    contactKeyMatches c2 (getContactData site0) = true := by
  constructor
  · obtain ⟨nm, ph, em⟩ := d
    cases ph <;> cases em <;> simp [contactKeyMatches, and_assoc]
  · unfold contactFound at hf
    simpa using List.find?_some hf

/-- C6 counterexample: a site whose `contact_phone` is non-empty but whose
`contact_name` is empty carries non-empty legacy contact data and is
nevertheless excluded by the selector, while a site with an empty legacy
`contact_phone` field is selected: the contact selector keys on
`contact_name` alone, not on the legacy contact fields collectively. -/
theorem selector_cex :
    (let s : SiteRec :=
      { pk := 0, contact_name := "", contact_phone := "555-1234",
        contact_email := "", asn := none };
     let t : SiteRec :=
      { pk := 1, contact_name := "Jane", contact_phone := "",
        contact_email := "", asn := none };
     let db : DB :=
      { sites := [s, t], contacts := [], assignments := [], asns := [],
        siteASNLinks := [], nextContactId := 0, nextASNId := 0 };
     s.contact_phone ≠ "" ∧ s ∉ selectedContactSites db ∧
       t.contact_phone = "" ∧ t ∈ selectedContactSites db) := by
  decide

/-- C6 (amended): the contact selector processes exactly the rows whose
`contact_name` is non-empty (phone/email are not consulted), and the ASN
selector processes exactly the rows whose legacy `asn` field is non-null. -/
theorem selector_processes_exactly (db : DB) (s : SiteRec) :
    (s ∈ selectedContactSites db ↔ s ∈ db.sites ∧ s.contact_name ≠ "") ∧
    (s ∈ selectedASNSites db ↔ s ∈ db.sites ∧ s.asn ≠ none) := by
  constructor
  · simp [selectedContactSites, List.mem_filter, bne_iff_ne]
  · simp [selectedASNSites, List.mem_filter, Option.isSome_iff_ne_none]

/-- Rows surviving a legacy-contact-field clearing update are either original
rows or rows whose three legacy contact fields are now empty. -/
lemma mem_clearContactFields {l : List SiteRec} {pk : Nat} {t : SiteRec}
    (ht : t ∈ clearContactFields l pk) :
    t ∈ l ∨ (t.contact_name = "" ∧ t.contact_phone = "" ∧ t.contact_email = "") := by
  simp only [clearContactFields, List.mem_map] at ht
  obtain ⟨u, hu, he⟩ := ht
  by_cases h : (u.pk == pk) = true
  · rw [if_pos h] at he
    right
    rw [← he]
    exact ⟨rfl, rfl, rfl⟩
  · rw [if_neg h] at he
    left
    rw [← he]
    exact hu

/-- Rows surviving a legacy-ASN clearing update are either original rows or
rows whose legacy `asn` field is now null. -/
lemma mem_clearASNField {l : List SiteRec} {pk : Nat} {t : SiteRec}
    (ht : t ∈ clearASNField l pk) :
    t ∈ l ∨ t.asn = none := by
  simp only [clearASNField, List.mem_map] at ht
  obtain ⟨u, hu, he⟩ := ht
  by_cases h : (u.pk == pk) = true
  · rw [if_pos h] at he
    right
    rw [← he]
  · rw [if_neg h] at he
    left
    rw [← he]
    exact hu

/-- Branch characterization: the create path of the contact loop (lookup
missed). -/
lemma contactStep_create (p : ContactParams) (st : RunState) (site : SiteRec)
    (h : contactFound st.db site = none) :
    contactStep p st site =
      { db :=
          { sites :=
              if p.clear_site_fields then clearContactFields st.db.sites site.pk
              else st.db.sites,
            contacts := st.db.contacts ++
              [{ id := st.db.nextContactId, name := (getContactData site).name,
                 phone := (getContactData site).phone.getD "",
                 email := (getContactData site).email.getD "" }],
            assignments := st.db.assignments ++
              [{ site_pk := site.pk, contact_id := st.db.nextContactId,
                 role := p.contact_role, priority := p.contact_priority }],
            asns := st.db.asns, siteASNLinks := st.db.siteASNLinks,
            nextContactId := st.db.nextContactId + 1, nextASNId := st.db.nextASNId },
        created := st.created + 1, linked := st.linked + 1,
        logs := st.logs ++
          [Ev.contactsCreating (getContactData site).name, Ev.contactsAssigning] ++
          (if p.clear_site_fields then [Ev.contactsClearing] else []) } := by
  unfold contactStep
  rw [h]
  by_cases hcl : p.clear_site_fields <;> simp [hcl]

/-- Branch characterization: the skip path of the contact loop (lookup hit,
assignment already present). -/
lemma contactStep_skip (p : ContactParams) (st : RunState) (site : SiteRec)
    (c : ContactRec) (h : contactFound st.db site = some c)
    (ha : hasAssignment st.db site.pk c.id = true) :
    contactStep p st site = { st with logs := st.logs ++ [Ev.contactsSkip] } := by
  unfold contactStep
  rw [h]
  simp [ha]

/-- Branch characterization: the reuse-and-link path of the contact loop
(lookup hit, no assignment yet). -/
lemma contactStep_reuse (p : ContactParams) (st : RunState) (site : SiteRec)
    (c : ContactRec) (h : contactFound st.db site = some c)
    (ha : hasAssignment st.db site.pk c.id = false) :
    contactStep p st site =
      { db :=
          { st.db with
            sites :=
              if p.clear_site_fields then clearContactFields st.db.sites site.pk
              else st.db.sites,
            assignments := st.db.assignments ++
              [{ site_pk := site.pk, contact_id := c.id,
                 role := p.contact_role, priority := p.contact_priority }] },
        created := st.created, linked := st.linked + 1,
        logs := st.logs ++ [Ev.contactsAssigning] ++
          (if p.clear_site_fields then [Ev.contactsClearing] else []) } := by
  unfold contactStep
  rw [h]
  by_cases hcl : p.clear_site_fields <;> simp [ha, hcl]

/-- Branch characterization: a site without a legacy ASN is left untouched by
the ASN loop body (unreachable from the run, whose selector filters them
out). -/
lemma asnStep_nolegacy (q : ASNParams) (st : RunState) (site : SiteRec)
    (h : site.asn = none) : asnStep q st site = st := by
  unfold asnStep
  rw [h]

/-- Branch characterization: the create path of the ASN loop. -/
lemma asnStep_create (q : ASNParams) (st : RunState) (site : SiteRec) (n : Nat)
    (h : site.asn = some n) (hf : asnFound st.db n = none) :
    asnStep q st site =
      { db :=
          { sites :=
              if q.clear_site_field then clearASNField st.db.sites site.pk
              else st.db.sites,
            contacts := st.db.contacts, assignments := st.db.assignments,
            asns := st.db.asns ++ [{ id := st.db.nextASNId, asn := n, rir := q.asn_rir }],
            siteASNLinks := st.db.siteASNLinks ++
              [{ site_pk := site.pk, asn_id := st.db.nextASNId }],
            nextContactId := st.db.nextContactId, nextASNId := st.db.nextASNId + 1 },
        created := st.created + 1, linked := st.linked + 1,
        logs := st.logs ++ [Ev.asnsCreating n, Ev.asnsAssigning] ++
          (if q.clear_site_field then [Ev.asnsClearing] else []) } := by
  unfold asnStep
  rw [h]
  by_cases hcl : q.clear_site_field <;> simp [hf, hcl]

/-- Branch characterization: the skip path of the ASN loop. -/
lemma asnStep_skip (q : ASNParams) (st : RunState) (site : SiteRec) (n : Nat)
    (a : ASNRec) (h : site.asn = some n) (hf : asnFound st.db n = some a)
    (hl : hasSiteASNLink st.db site.pk a.id = true) :
    asnStep q st site = { st with logs := st.logs ++ [Ev.asnsSkip] } := by
  unfold asnStep
  rw [h]
  simp [hf, hl]

/-- Branch characterization: the reuse-and-link path of the ASN loop. -/
lemma asnStep_reuse (q : ASNParams) (st : RunState) (site : SiteRec) (n : Nat)
    (a : ASNRec) (h : site.asn = some n) (hf : asnFound st.db n = some a)
    (hl : hasSiteASNLink st.db site.pk a.id = false) :
    asnStep q st site =
      { db :=
          { st.db with
            sites :=
              if q.clear_site_field then clearASNField st.db.sites site.pk
              else st.db.sites,
            siteASNLinks := st.db.siteASNLinks ++
              [{ site_pk := site.pk, asn_id := a.id }] },
        created := st.created, linked := st.linked + 1,
        logs := st.logs ++ [Ev.asnsAssigning] ++
          (if q.clear_site_field then [Ev.asnsClearing] else []) } := by
  unfold asnStep
  rw [h]
  by_cases hcl : q.clear_site_field <;> simp [hf, hl, hcl]

/-- A `find?` hit is stable under appending rows to the table. -/
lemma find?_append_pres {α : Type} {p : α → Bool} {l1 : List α} {x : α}
    (h : l1.find? p = some x) (l2 : List α) : (l1 ++ l2).find? p = some x := by
  simp [List.find?_append, h]

/-- The contact row the script builds from a key matches that key. -/
lemma created_matches (d : ContactData) (i : Nat) :
    contactKeyMatches
      { id := i, name := d.name, phone := d.phone.getD "", email := d.email.getD "" }
      d = true := by
  obtain ⟨nm, ph, em⟩ := d
  cases ph <;> cases em <;> simp [contactKeyMatches]

/-- Unpacking the skip condition of the contact loop. -/
lemma contactSkips_spec {db : DB} {s : SiteRec} (h : contactSkips db s = true) :
    ∃ c, contactFound db s = some c ∧ hasAssignment db s.pk c.id = true := by
  unfold contactSkips at h
  cases hf : contactFound db s with
  | none => rw [hf] at h; simp at h
  | some c => rw [hf] at h; exact ⟨c, rfl, h⟩

/-- Frame of one contact-loop iteration: contacts and assignments only grow
by appended rows, the ASN tables are untouched, and every site row is either
an original row or one whose legacy contact fields were cleared. -/
lemma contactStep_db_frame (p : ContactParams) (st : RunState) (site : SiteRec) :
    (∃ tl, (contactStep p st site).db.contacts = st.db.contacts ++ tl) ∧
    (∃ tl, (contactStep p st site).db.assignments = st.db.assignments ++ tl) ∧
    (contactStep p st site).db.asns = st.db.asns ∧
    (contactStep p st site).db.siteASNLinks = st.db.siteASNLinks ∧
    (∀ t ∈ (contactStep p st site).db.sites,
      t ∈ st.db.sites ∨ (t.contact_name = "" ∧ t.contact_phone = "" ∧ t.contact_email = "")) := by
  cases h : contactFound st.db site with
  | none =>
    rw [contactStep_create p st site h]
    refine ⟨⟨_, rfl⟩, ⟨_, rfl⟩, rfl, rfl, ?_⟩
    intro t ht
    by_cases hcl : p.clear_site_fields
    · rw [if_pos hcl] at ht
      exact mem_clearContactFields ht
    · rw [if_neg hcl] at ht
      exact Or.inl ht
  | some c =>
    cases ha : hasAssignment st.db site.pk c.id with
    | true =>
      rw [contactStep_skip p st site c h ha]
      exact ⟨⟨[], by simp⟩, ⟨[], by simp⟩, rfl, rfl, fun t ht => Or.inl ht⟩
    | false =>
      rw [contactStep_reuse p st site c h ha]
      refine ⟨⟨[], by simp⟩, ⟨_, rfl⟩, rfl, rfl, ?_⟩
      intro t ht
      by_cases hcl : p.clear_site_fields
      · rw [if_pos hcl] at ht
        exact mem_clearContactFields ht
      · rw [if_neg hcl] at ht
        exact Or.inl ht

/-- A site already settled (contact found, assignment present) stays settled
across any further contact-loop iteration. -/
lemma contactSkips_mono (p : ContactParams) (st : RunState) (site s : SiteRec)
    (h : contactSkips st.db s = true) :
    contactSkips (contactStep p st site).db s = true := by
  obtain ⟨⟨tl, hc⟩, ⟨tl2, ha⟩, -⟩ := contactStep_db_frame p st site
  obtain ⟨c, hf, hass⟩ := contactSkips_spec h
  have hf' : contactFound (contactStep p st site).db s = some c := by
    unfold contactFound at hf ⊢
    rw [hc]
    exact find?_append_pres hf tl
  have ha' : hasAssignment (contactStep p st site).db s.pk c.id = true := by
    unfold hasAssignment at hass ⊢
    rw [ha, List.any_append, hass]
    rfl
  unfold contactSkips
  rw [hf']
  exact ha'

/-- After its own iteration, a site is settled: the lookup now finds a
contact for its key and an assignment for the pair exists. -/
lemma contactStep_settles (p : ContactParams) (st : RunState) (site : SiteRec) :
    contactSkips (contactStep p st site).db site = true := by
  cases h : contactFound st.db site with
  | none =>
    have hf' : contactFound (contactStep p st site).db site =
        some { id := st.db.nextContactId, name := (getContactData site).name,
               phone := (getContactData site).phone.getD "",
               email := (getContactData site).email.getD "" } := by
      rw [contactStep_create p st site h]
      unfold contactFound at h ⊢
      rw [List.find?_append, h]
      simp [created_matches]
    unfold contactSkips
    rw [hf']
    rw [contactStep_create p st site h]
    unfold hasAssignment
    simp [List.any_append, assignPairP]
  | some c =>
    cases ha : hasAssignment st.db site.pk c.id with
    | true =>
      rw [contactStep_skip p st site c h ha]
      unfold contactSkips
      rw [show contactFound ({ st with logs := st.logs ++ [Ev.contactsSkip] } : RunState).db site = some c from h]
      exact ha
    | false =>
      have hf' : contactFound (contactStep p st site).db site = some c := by
        rw [contactStep_reuse p st site c h ha]
        exact h
      unfold contactSkips
      rw [hf']
      rw [contactStep_reuse p st site c h ha]
      unfold hasAssignment
      simp [List.any_append, assignPairP]

/-- Folding the contact loop keeps the invariant that every stored site row
is an original row or has an empty `contact_name`. -/
lemma contactsFold_sites (p : ContactParams) (base : List SiteRec) :
    ∀ (l : List SiteRec) (st : RunState),
      (∀ t ∈ st.db.sites, t ∈ base ∨ t.contact_name = "") →
      ∀ t ∈ (l.foldl (contactStep p) st).db.sites, t ∈ base ∨ t.contact_name = "" := by
  intro l
  induction l with
  | nil => intro st h; simpa using h
  | cons a l ih =>
    intro st h
    rw [List.foldl_cons]
    apply ih
    intro t ht
    obtain ⟨-, -, -, -, hs⟩ := contactStep_db_frame p st a
    rcases hs t ht with h1 | h2
    · exact h t h1
    · exact Or.inr h2.1

/-- After folding the contact loop over a site list, every site of that list
(and every site settled beforehand) is settled. -/
lemma contactsFold_settles (p : ContactParams) :
    ∀ (l : List SiteRec) (st : RunState) (s : SiteRec),
      (contactSkips st.db s = true ∨ s ∈ l) →
      contactSkips ((l.foldl (contactStep p) st)).db s = true := by
  intro l
  induction l with
  | nil =>
    intro st s h
    rcases h with h | h
    · simpa using h
    · simp at h
  | cons a l ih =>
    intro st s h
    rw [List.foldl_cons]
    apply ih
    rcases h with h | h
    · exact Or.inl (contactSkips_mono p st a s h)
    · rcases List.mem_cons.mp h with rfl | hmem
      · exact Or.inl (contactStep_settles p st s)
      · exact Or.inr hmem

/-- Folding the contact loop over sites that all satisfy the skip condition
changes neither the database nor the counters. -/
lemma contactsFold_allskip (p : ContactParams) :
    ∀ (l : List SiteRec) (st : RunState),
      (∀ s ∈ l, contactSkips st.db s = true) →
      (l.foldl (contactStep p) st).db = st.db ∧
      (l.foldl (contactStep p) st).created = st.created ∧
      (l.foldl (contactStep p) st).linked = st.linked := by
  intro l
  induction l with
  | nil => intro st _; exact ⟨rfl, rfl, rfl⟩
  | cons a l ih =>
    intro st h
    rw [List.foldl_cons]
    obtain ⟨c, hf, ha⟩ := contactSkips_spec (h a (List.mem_cons_self a l))
    rw [contactStep_skip p st a c hf ha]
    exact ih _ fun s hsl => h s (List.mem_cons_of_mem a hsl)

/-- Unpacking the skip condition of the ASN loop. -/
lemma asnSkips_spec {db : DB} {s : SiteRec} (h : asnSkips db s = true) :
    ∃ n a, s.asn = some n ∧ asnFound db n = some a ∧
      hasSiteASNLink db s.pk a.id = true := by
  unfold asnSkips at h
  cases hn : s.asn with
  | none => rw [hn] at h; simp at h
  | some n =>
    rw [hn] at h
    dsimp only at h
    cases hf : asnFound db n with
    | none => rw [hf] at h; simp at h
    | some a => rw [hf] at h; exact ⟨n, a, rfl, hf, h⟩

/-- Frame of one ASN-loop iteration: ASNs and m2m rows only grow by appended
rows, the contact tables are untouched, and every site row is an original row
or one whose legacy `asn` field was cleared. -/
lemma asnStep_db_frame (q : ASNParams) (st : RunState) (site : SiteRec) :
    (∃ tl, (asnStep q st site).db.asns = st.db.asns ++ tl) ∧
    (∃ tl, (asnStep q st site).db.siteASNLinks = st.db.siteASNLinks ++ tl) ∧
    (asnStep q st site).db.contacts = st.db.contacts ∧
    (asnStep q st site).db.assignments = st.db.assignments ∧
    (∀ t ∈ (asnStep q st site).db.sites, t ∈ st.db.sites ∨ t.asn = none) := by
  cases hn : site.asn with
  | none =>
    rw [asnStep_nolegacy q st site hn]
    exact ⟨⟨[], by simp⟩, ⟨[], by simp⟩, rfl, rfl, fun t ht => Or.inl ht⟩
  | some n =>
    cases hf : asnFound st.db n with
    | none =>
      rw [asnStep_create q st site n hn hf]
      refine ⟨⟨_, rfl⟩, ⟨_, rfl⟩, rfl, rfl, ?_⟩
      intro t ht
      by_cases hcl : q.clear_site_field
      · rw [if_pos hcl] at ht
        exact mem_clearASNField ht
      · rw [if_neg hcl] at ht
        exact Or.inl ht
    | some a =>
      cases hl : hasSiteASNLink st.db site.pk a.id with
      | true =>
        rw [asnStep_skip q st site n a hn hf hl]
        exact ⟨⟨[], by simp⟩, ⟨[], by simp⟩, rfl, rfl, fun t ht => Or.inl ht⟩
      | false =>
        rw [asnStep_reuse q st site n a hn hf hl]
        refine ⟨⟨[], by simp⟩, ⟨_, rfl⟩, rfl, rfl, ?_⟩
        intro t ht
        by_cases hcl : q.clear_site_field
        · rw [if_pos hcl] at ht
          exact mem_clearASNField ht
        · rw [if_neg hcl] at ht
          exact Or.inl ht

/-- A site already settled (ASN found, m2m row present) stays settled across
any further ASN-loop iteration. -/
lemma asnSkips_mono (q : ASNParams) (st : RunState) (site s : SiteRec)
    (h : asnSkips st.db s = true) :
    asnSkips (asnStep q st site).db s = true := by
  obtain ⟨⟨tl, hc⟩, ⟨tl2, hl⟩, -⟩ := asnStep_db_frame q st site
  obtain ⟨n, a, hn, hf, hlink⟩ := asnSkips_spec h
  have hf' : asnFound (asnStep q st site).db n = some a := by
    unfold asnFound at hf ⊢
    rw [hc]
    exact find?_append_pres hf tl
  have hl' : hasSiteASNLink (asnStep q st site).db s.pk a.id = true := by
    unfold hasSiteASNLink at hlink ⊢
    rw [hl, List.any_append, hlink]
    rfl
  unfold asnSkips
  rw [hn]
  simp [hf', hl']

/-- After its own iteration, a site with a legacy ASN is settled: the lookup
now finds an ASN with its number and the m2m row exists. -/
lemma asnStep_settles (q : ASNParams) (st : RunState) (site : SiteRec) (n : Nat)
    (hn : site.asn = some n) :
    asnSkips (asnStep q st site).db site = true := by
  cases hf : asnFound st.db n with
  | none =>
    have hf' : asnFound (asnStep q st site).db n =
        some { id := st.db.nextASNId, asn := n, rir := q.asn_rir } := by
      rw [asnStep_create q st site n hn hf]
      unfold asnFound at hf ⊢
      rw [List.find?_append, hf]
      simp
    have hl' : hasSiteASNLink (asnStep q st site).db site.pk st.db.nextASNId = true := by
      rw [asnStep_create q st site n hn hf]
      unfold hasSiteASNLink
      simp [List.any_append, linkPairP]
    unfold asnSkips
    rw [hn]
    simp [hf', hl']
  | some a =>
    cases hl : hasSiteASNLink st.db site.pk a.id with
    | true =>
      rw [asnStep_skip q st site n a hn hf hl]
      unfold asnSkips
      rw [hn]
      simp [show asnFound st.db n = some a from hf, hl]
    | false =>
      have hf' : asnFound (asnStep q st site).db n = some a := by
        rw [asnStep_reuse q st site n a hn hf hl]
        exact hf
      have hl' : hasSiteASNLink (asnStep q st site).db site.pk a.id = true := by
        rw [asnStep_reuse q st site n a hn hf hl]
        unfold hasSiteASNLink
        simp [List.any_append, linkPairP]
      unfold asnSkips
      rw [hn]
      simp [hf', hl']

/-- Folding the ASN loop keeps the invariant that every stored site row is an
original row or has a null legacy `asn`. -/
lemma asnsFold_sites (q : ASNParams) (base : List SiteRec) :
    ∀ (l : List SiteRec) (st : RunState),
      (∀ t ∈ st.db.sites, t ∈ base ∨ t.asn = none) →
      ∀ t ∈ (l.foldl (asnStep q) st).db.sites, t ∈ base ∨ t.asn = none := by
  intro l
  induction l with
  | nil => intro st h; simpa using h
  | cons a l ih =>
    intro st h
    rw [List.foldl_cons]
    apply ih
    intro t ht
    obtain ⟨-, -, -, -, hs⟩ := asnStep_db_frame q st a
    rcases hs t ht with h1 | h2
    · exact h t h1
    · exact Or.inr h2

/-- After folding the ASN loop over a site list, every site of that list that
has a legacy ASN (and every site settled beforehand) is settled. -/
lemma asnsFold_settles (q : ASNParams) :
    ∀ (l : List SiteRec) (st : RunState) (s : SiteRec),
      (asnSkips st.db s = true ∨ (s ∈ l ∧ s.asn ≠ none)) →
      asnSkips ((l.foldl (asnStep q) st)).db s = true := by
  intro l
  induction l with
  | nil =>
    intro st s h
    rcases h with h | h
    · simpa using h
    · simp at h
  | cons a l ih =>
    intro st s h
    rw [List.foldl_cons]
    apply ih
    rcases h with h | ⟨hmem, hsome⟩
    · exact Or.inl (asnSkips_mono q st a s h)
    · rcases List.mem_cons.mp hmem with rfl | hmem'
      · obtain ⟨n, hn⟩ := Option.ne_none_iff_exists'.mp hsome
        exact Or.inl (asnStep_settles q st s n hn)
      · exact Or.inr ⟨hmem', hsome⟩

/-- Folding the ASN loop over sites that all satisfy the skip condition
changes neither the database nor the counters. -/
lemma asnsFold_allskip (q : ASNParams) :
    ∀ (l : List SiteRec) (st : RunState),
      (∀ s ∈ l, asnSkips st.db s = true) →
      (l.foldl (asnStep q) st).db = st.db ∧
      (l.foldl (asnStep q) st).created = st.created ∧
      (l.foldl (asnStep q) st).linked = st.linked := by
  intro l
  induction l with
  | nil => intro st _; exact ⟨rfl, rfl, rfl⟩
  | cons a l ih =>
    intro st h
    rw [List.foldl_cons]
    obtain ⟨n, x, hn, hf, hl⟩ := asnSkips_spec (h a (List.mem_cons_self a l))
    rw [asnStep_skip q st a n x hn hf hl]
    exact ih _ fun s hsl => h s (List.mem_cons_of_mem a hsl)

/-- The state in which the contact loop starts (selection found non-empty,
`Found N sites...` logged, counters zeroed). -/
def contactsInit (db : DB) : RunState :=
  { db := db, created := 0, linked := 0,
    logs := [Ev.contactsInfoFound (selectedContactSites db).length] }

/-- The state after the contact loop, before the final summary logs. -/
def contactsFoldState (p : ContactParams) (db : DB) : RunState :=
  (selectedContactSites db).foldl (contactStep p) (contactsInit db)

/-- The state in which the ASN loop starts. -/
def asnsInit (db : DB) : RunState :=
  { db := db, created := 0, linked := 0,
    logs := [Ev.asnsInfoFound (selectedASNSites db).length] }

/-- The state after the ASN loop, before the final summary logs. -/
def asnsFoldState (q : ASNParams) (db : DB) : RunState :=
  (selectedASNSites db).foldl (asnStep q) (asnsInit db)

/-- The contact run on an empty selection: warn and stop. -/
lemma contactsRun_of_empty (p : ContactParams) (db : DB)
    (h : selectedContactSites db = []) :
    contactsRun p db =
      { db := db, created := 0, linked := 0, logs := [Ev.contactsWarnNoSites] } := by
  unfold contactsRun
  rw [h]
  rfl

/-- The contact run on a non-empty selection: fold the loop, then append the
two summary logs. -/
lemma contactsRun_of_nonempty (p : ContactParams) (db : DB)
    (h : selectedContactSites db ≠ []) :
    contactsRun p db =
      { contactsFoldState p db with
        logs := (contactsFoldState p db).logs ++
          [Ev.contactsSummaryCreated (contactsFoldState p db).created,
           Ev.contactsSummaryAssigned (contactsFoldState p db).linked] } := by
  have hne : (selectedContactSites db).isEmpty = false := by
    simp [List.isEmpty_iff, h]
  unfold contactsRun contactsFoldState contactsInit
  simp [hne]

/-- The ASN run on an empty selection: warn and stop. -/
lemma asnsRun_of_empty (q : ASNParams) (db : DB)
    (h : selectedASNSites db = []) :
    asnsRun q db =
      { db := db, created := 0, linked := 0, logs := [Ev.asnsWarnNoSites] } := by
  unfold asnsRun
  rw [h]
  rfl

/-- The ASN run on a non-empty selection: fold the loop, then append the two
summary logs. -/
lemma asnsRun_of_nonempty (q : ASNParams) (db : DB)
    (h : selectedASNSites db ≠ []) :
    asnsRun q db =
      { asnsFoldState q db with
        logs := (asnsFoldState q db).logs ++
          [Ev.asnsSummaryCreated (asnsFoldState q db).created,
           Ev.asnsSummaryAssigned (asnsFoldState q db).linked] } := by
  have hne : (selectedASNSites db).isEmpty = false := by
    simp [List.isEmpty_iff, h]
  unfold asnsRun asnsFoldState asnsInit
  simp [hne]

/-- After a full contact run, every site still selected by the selector
satisfies the skip condition: its contact is found and its assignment
exists. -/
lemma contactsRun_settles (p : ContactParams) (db : DB)
    (h : selectedContactSites db ≠ []) :
    ∀ s ∈ selectedContactSites (contactsRun p db).db,
      contactSkips (contactsRun p db).db s = true := by
  have hdb : (contactsRun p db).db = (contactsFoldState p db).db := by
    rw [contactsRun_of_nonempty p db h]
  intro s hs
  rw [hdb] at hs ⊢
  obtain ⟨hmem, hname⟩ := List.mem_filter.mp hs
  have hinv := contactsFold_sites p db.sites (selectedContactSites db)
    (contactsInit db) (fun t ht => Or.inl ht) s hmem
  rcases hinv with hmem0 | hempty
  · have hsel : s ∈ selectedContactSites db := List.mem_filter.mpr ⟨hmem0, hname⟩
    exact contactsFold_settles p (selectedContactSites db) (contactsInit db) s
      (Or.inr hsel)
  · rw [hempty] at hname
    simp at hname

/-- After a full ASN run, every site still selected by the selector
satisfies the skip condition. -/
lemma asnsRun_settles (q : ASNParams) (db : DB)
    (h : selectedASNSites db ≠ []) :
    ∀ s ∈ selectedASNSites (asnsRun q db).db,
      asnSkips (asnsRun q db).db s = true := by
  have hdb : (asnsRun q db).db = (asnsFoldState q db).db := by
    rw [asnsRun_of_nonempty q db h]
  intro s hs
  rw [hdb] at hs ⊢
  obtain ⟨hmem, hsome⟩ := List.mem_filter.mp hs
  have hinv := asnsFold_sites q db.sites (selectedASNSites db)
    (asnsInit db) (fun t ht => Or.inl ht) s hmem
  rcases hinv with hmem0 | hnone
  · have hsel : s ∈ selectedASNSites db := List.mem_filter.mpr ⟨hmem0, hsome⟩
    refine asnsFold_settles q (selectedASNSites db) (asnsInit db) s (Or.inr ⟨hsel, ?_⟩)
    simpa [Option.isSome_iff_ne_none] using hsome
  · rw [hnone] at hsome
    simp at hsome

/-- C1: running either migration script a second time in commit mode with
the same parameters creates zero additional canonical records
(Contacts/ASNs) and zero additional links (ContactAssignments/Site-ASN
rows): on the second run both counters stay at zero and the database is
left exactly as the first run left it. -/
theorem second_run_creates_nothing (p : ContactParams) (q : ASNParams) (db : DB) :
    ((contactsRun p (contactsRun p db).db).created = 0 ∧
     (contactsRun p (contactsRun p db).db).linked = 0 ∧
     (contactsRun p (contactsRun p db).db).db = (contactsRun p db).db) ∧
    ((asnsRun q (asnsRun q db).db).created = 0 ∧
     (asnsRun q (asnsRun q db).db).linked = 0 ∧
     (asnsRun q (asnsRun q db).db).db = (asnsRun q db).db) := by
  constructor
  · by_cases h1 : selectedContactSites db = []
    · have hdb1 : (contactsRun p db).db = db := by
        rw [contactsRun_of_empty p db h1]
      rw [hdb1, contactsRun_of_empty p db h1]
      exact ⟨rfl, rfl, rfl⟩
    · have hset := contactsRun_settles p db h1
      by_cases h2 : selectedContactSites (contactsRun p db).db = []
      · rw [contactsRun_of_empty p _ h2]
        exact ⟨rfl, rfl, rfl⟩
      · have e2 := contactsRun_of_nonempty p _ h2
        have hfold := contactsFold_allskip p
          (selectedContactSites (contactsRun p db).db)
          (contactsInit (contactsRun p db).db) hset
        refine ⟨?_, ?_, ?_⟩
        · rw [e2]
          show (contactsFoldState p (contactsRun p db).db).created = 0
          unfold contactsFoldState
          rw [hfold.2.1]
          rfl
        · rw [e2]
          show (contactsFoldState p (contactsRun p db).db).linked = 0
          unfold contactsFoldState
          rw [hfold.2.2]
          rfl
        · rw [e2]
          show (contactsFoldState p (contactsRun p db).db).db = (contactsRun p db).db
          unfold contactsFoldState
          rw [hfold.1]
          rfl
  · by_cases h1 : selectedASNSites db = []
    · have hdb1 : (asnsRun q db).db = db := by
        rw [asnsRun_of_empty q db h1]
      rw [hdb1, asnsRun_of_empty q db h1]
      exact ⟨rfl, rfl, rfl⟩
    · have hset := asnsRun_settles q db h1
      by_cases h2 : selectedASNSites (asnsRun q db).db = []
      · rw [asnsRun_of_empty q _ h2]
        exact ⟨rfl, rfl, rfl⟩
      · have e2 := asnsRun_of_nonempty q _ h2
        have hfold := asnsFold_allskip q
          (selectedASNSites (asnsRun q db).db)
          (asnsInit (asnsRun q db).db) hset
        refine ⟨?_, ?_, ?_⟩
        · rw [e2]
          show (asnsFoldState q (asnsRun q db).db).created = 0
          unfold asnsFoldState
          rw [hfold.2.1]
          rfl
        · rw [e2]
          show (asnsFoldState q (asnsRun q db).db).linked = 0
          unfold asnsFoldState
          rw [hfold.2.2]
          rfl
        · rw [e2]
          show (asnsFoldState q (asnsRun q db).db).db = (asnsRun q db).db
          unfold asnsFoldState
          rw [hfold.1]
          rfl

/-- Folding the contact loop only appends to contacts and assignments and
leaves the ASN tables untouched. -/
lemma contactsFold_append (p : ContactParams) :
    ∀ (l : List SiteRec) (st : RunState),
      (∃ tl, (l.foldl (contactStep p) st).db.contacts = st.db.contacts ++ tl) ∧
      (∃ tl, (l.foldl (contactStep p) st).db.assignments = st.db.assignments ++ tl) ∧
      (l.foldl (contactStep p) st).db.asns = st.db.asns ∧
      (l.foldl (contactStep p) st).db.siteASNLinks = st.db.siteASNLinks := by
  intro l
  induction l with
  | nil => intro st; exact ⟨⟨[], by simp⟩, ⟨[], by simp⟩, rfl, rfl⟩
  | cons a l ih =>
    intro st
    rw [List.foldl_cons]
    obtain ⟨⟨tc0, hc0⟩, ⟨ta0, ha0⟩, hasn0, hlk0, -⟩ := contactStep_db_frame p st a
    obtain ⟨⟨tc1, hc1⟩, ⟨ta1, ha1⟩, hasn1, hlk1⟩ := ih (contactStep p st a)
    refine ⟨⟨tc0 ++ tc1, ?_⟩, ⟨ta0 ++ ta1, ?_⟩, ?_, ?_⟩
    · rw [hc1, hc0, List.append_assoc]
    · rw [ha1, ha0, List.append_assoc]
    · rw [hasn1, hasn0]
    · rw [hlk1, hlk0]

/-- Folding the ASN loop only appends to ASNs and m2m rows and leaves the
contact tables untouched. -/
lemma asnsFold_append (q : ASNParams) :
    ∀ (l : List SiteRec) (st : RunState),
      (∃ tl, (l.foldl (asnStep q) st).db.asns = st.db.asns ++ tl) ∧
      (∃ tl, (l.foldl (asnStep q) st).db.siteASNLinks = st.db.siteASNLinks ++ tl) ∧
      (l.foldl (asnStep q) st).db.contacts = st.db.contacts ∧
      (l.foldl (asnStep q) st).db.assignments = st.db.assignments := by
  intro l
  induction l with
  | nil => intro st; exact ⟨⟨[], by simp⟩, ⟨[], by simp⟩, rfl, rfl⟩
  | cons a l ih =>
    intro st
    rw [List.foldl_cons]
    obtain ⟨⟨tc0, hc0⟩, ⟨ta0, ha0⟩, hct0, has0, -⟩ := asnStep_db_frame q st a
    obtain ⟨⟨tc1, hc1⟩, ⟨ta1, ha1⟩, hct1, has1⟩ := ih (asnStep q st a)
    refine ⟨⟨tc0 ++ tc1, ?_⟩, ⟨ta0 ++ ta1, ?_⟩, ?_, ?_⟩
    · rw [hc1, hc0, List.append_assoc]
    · rw [ha1, ha0, List.append_assoc]
    · rw [hct1, hct0]
    · rw [has1, has0]

/-- The contact run only appends to contacts/assignments; the ASN run only
appends to ASNs/m2m rows; neither touches the other script's tables. -/
lemma runs_append_only (p : ContactParams) (q : ASNParams) (db : DB) :
    (∃ tl, (contactsRun p db).db.contacts = db.contacts ++ tl) ∧
    (∃ tl, (contactsRun p db).db.assignments = db.assignments ++ tl) ∧
    (contactsRun p db).db.asns = db.asns ∧
    (contactsRun p db).db.siteASNLinks = db.siteASNLinks ∧
    (∃ tl, (asnsRun q db).db.asns = db.asns ++ tl) ∧
    (∃ tl, (asnsRun q db).db.siteASNLinks = db.siteASNLinks ++ tl) ∧
    (asnsRun q db).db.contacts = db.contacts ∧
    (asnsRun q db).db.assignments = db.assignments := by
  have hc :
      (∃ tl, (contactsRun p db).db.contacts = db.contacts ++ tl) ∧
      (∃ tl, (contactsRun p db).db.assignments = db.assignments ++ tl) ∧
      (contactsRun p db).db.asns = db.asns ∧
      (contactsRun p db).db.siteASNLinks = db.siteASNLinks := by
    by_cases h : selectedContactSites db = []
    · rw [contactsRun_of_empty p db h]
      exact ⟨⟨[], by simp⟩, ⟨[], by simp⟩, rfl, rfl⟩
    · rw [contactsRun_of_nonempty p db h]
      exact contactsFold_append p (selectedContactSites db) (contactsInit db)
  have ha :
      (∃ tl, (asnsRun q db).db.asns = db.asns ++ tl) ∧
      (∃ tl, (asnsRun q db).db.siteASNLinks = db.siteASNLinks ++ tl) ∧
      (asnsRun q db).db.contacts = db.contacts ∧
      (asnsRun q db).db.assignments = db.assignments := by
    by_cases h : selectedASNSites db = []
    · rw [asnsRun_of_empty q db h]
      exact ⟨⟨[], by simp⟩, ⟨[], by simp⟩, rfl, rfl⟩
    · rw [asnsRun_of_nonempty q db h]
      exact asnsFold_append q (selectedASNSites db) (asnsInit db)
  exact ⟨hc.1, hc.2.1, hc.2.2.1, hc.2.2.2, ha.1, ha.2.1, ha.2.2.1, ha.2.2.2⟩

/-- C10: a reused canonical record is never modified by either script.  Both
runs only append to their canonical tables, so every pre-existing Contact row
and every pre-existing ASN row (including its `rir` value, onto which the
`asn_rir` parameter is never written) survives the run unchanged; each script
leaves the other script's canonical table entirely untouched. -/
theorem reused_records_never_modified (p : ContactParams) (q : ASNParams) (db : DB) :
    (∃ tl, (contactsRun p db).db.contacts = db.contacts ++ tl) ∧
    (contactsRun p db).db.asns = db.asns ∧
    (∃ tl, (asnsRun q db).db.asns = db.asns ++ tl) ∧
    (asnsRun q db).db.contacts = db.contacts ∧
    (∀ c ∈ db.contacts, c ∈ (contactsRun p db).db.contacts) ∧
    (∀ a ∈ db.asns, a ∈ (asnsRun q db).db.asns) := by
  obtain ⟨hc, -, hasn, -, ha, -, hct, -⟩ := runs_append_only p q db
  refine ⟨hc, hasn, ha, hct, ?_, ?_⟩
  · intro c hcm
    obtain ⟨tl, htl⟩ := hc
    rw [htl]
    exact List.mem_append_left _ hcm
  · intro a ham
    obtain ⟨tl, htl⟩ := ha
    rw [htl]
    exact List.mem_append_left _ ham

/-- C8: when the selector yields no source records, either script logs
exactly one warning event and terminates with zero side effects: the
database is returned unchanged and both counters are zero. -/
theorem empty_selection_warns_and_stops (p : ContactParams) (q : ASNParams)
    (db1 db2 : DB) (h1 : selectedContactSites db1 = [])
    (h2 : selectedASNSites db2 = []) :
    contactsRun p db1 =
      { db := db1, created := 0, linked := 0, logs := [Ev.contactsWarnNoSites] } ∧
    Ev.level Ev.contactsWarnNoSites = LogLevel.warning ∧
    asnsRun q db2 =
      { db := db2, created := 0, linked := 0, logs := [Ev.asnsWarnNoSites] } ∧
    Ev.level Ev.asnsWarnNoSites = LogLevel.warning :=
  ⟨contactsRun_of_empty p db1 h1, rfl, asnsRun_of_empty q db2 h2, rfl⟩

/-- Witness for C8 on a concrete database: one site with no legacy contact
data and no legacy ASN, so both selections are empty. -/
theorem empty_selection_warns_and_stops_witness :
    contactsRun { contact_role := 3, contact_priority := "primary", clear_site_fields := true }
      { sites := [{ pk := 5, contact_name := "", contact_phone := "", contact_email := "", asn := none }],
        contacts := [], assignments := [], asns := [], siteASNLinks := [],
        nextContactId := 0, nextASNId := 0 } =
      { db := { sites := [{ pk := 5, contact_name := "", contact_phone := "", contact_email := "", asn := none }],
                contacts := [], assignments := [], asns := [], siteASNLinks := [],
                nextContactId := 0, nextASNId := 0 },
        created := 0, linked := 0, logs := [Ev.contactsWarnNoSites] } ∧
    Ev.level Ev.contactsWarnNoSites = LogLevel.warning ∧
    asnsRun { asn_rir := 2, clear_site_field := true }
      { sites := [{ pk := 5, contact_name := "", contact_phone := "", contact_email := "", asn := none }],
        contacts := [], assignments := [], asns := [], siteASNLinks := [],
        nextContactId := 0, nextASNId := 0 } =
      { db := { sites := [{ pk := 5, contact_name := "", contact_phone := "", contact_email := "", asn := none }],
                contacts := [], assignments := [], asns := [], siteASNLinks := [],
                nextContactId := 0, nextASNId := 0 },
        created := 0, linked := 0, logs := [Ev.asnsWarnNoSites] } ∧
    Ev.level Ev.asnsWarnNoSites = LogLevel.warning :=
  empty_selection_warns_and_stops
    { contact_role := 3, contact_priority := "primary", clear_site_fields := true }
    { asn_rir := 2, clear_site_field := true }
    { sites := [{ pk := 5, contact_name := "", contact_phone := "", contact_email := "", asn := none }],
      contacts := [], assignments := [], asns := [], siteASNLinks := [],
      nextContactId := 0, nextASNId := 0 }
    { sites := [{ pk := 5, contact_name := "", contact_phone := "", contact_email := "", asn := none }],
      contacts := [], assignments := [], asns := [], siteASNLinks := [],
      nextContactId := 0, nextASNId := 0 }
    (by decide) (by decide)

/-- The skip condition is false when the lookup misses. -/
lemma contactSkips_of_found_none {db : DB} {s : SiteRec}
    (h : contactFound db s = none) : contactSkips db s = false := by
  unfold contactSkips
  rw [h]

/-- The skip condition reduces to the assignment-existence check when the
lookup hits. -/
lemma contactSkips_of_found {db : DB} {s : SiteRec} {c : ContactRec}
    (h : contactFound db s = some c) :
    contactSkips db s = hasAssignment db s.pk c.id := by
  unfold contactSkips
  rw [h]

/-- The skip condition is false when the ASN lookup misses. -/
lemma asnSkips_of_found_none {db : DB} {s : SiteRec} {n : Nat}
    (hn : s.asn = some n) (hf : asnFound db n = none) : asnSkips db s = false := by
  unfold asnSkips
  rw [hn]
  dsimp only
  rw [hf]

/-- The skip condition reduces to the m2m-existence check when the ASN
lookup hits. -/
lemma asnSkips_of_found {db : DB} {s : SiteRec} {n : Nat} {a : ASNRec}
    (hn : s.asn = some n) (hf : asnFound db n = some a) :
    asnSkips db s = hasSiteASNLink db s.pk a.id := by
  unfold asnSkips
  rw [hn]
  dsimp only
  rw [hf]

/-- C5: in every iteration of either script, the legacy site fields are
cleared if and only if the operator's clear flag is set and a link was
created in that same iteration (equivalently: the skip path was not taken);
on the skip path the stored site rows are untouched even when the flag is
set.  The second and fourth conjuncts record that a link row is appended
exactly on the non-skip paths. -/
theorem clear_iff_flag_and_link_created (p : ContactParams) (q : ASNParams)
    (st st2 : RunState) (site site2 : SiteRec) (h2 : site2.asn.isSome = true) :
    ((contactStep p st site).db.sites =
      if p.clear_site_fields = true ∧ contactSkips st.db site = false
      then clearContactFields st.db.sites site.pk else st.db.sites) ∧
    ((contactStep p st site).db.assignments.length =
      st.db.assignments.length +
        (if contactSkips st.db site = true then 0 else 1)) ∧
    ((asnStep q st2 site2).db.sites =
      if q.clear_site_field = true ∧ asnSkips st2.db site2 = false
      then clearASNField st2.db.sites site2.pk else st2.db.sites) ∧
    ((asnStep q st2 site2).db.siteASNLinks.length =
      st2.db.siteASNLinks.length +
        (if asnSkips st2.db site2 = true then 0 else 1)) := by
  obtain ⟨n, hn⟩ := Option.isSome_iff_exists.mp h2
  refine ⟨?_, ?_, ?_, ?_⟩
  · cases h : contactFound st.db site with
    | none =>
      rw [contactStep_create p st site h, contactSkips_of_found_none h]
      by_cases hcl : p.clear_site_fields <;> simp [hcl]
    | some c =>
      rw [contactSkips_of_found h]
      cases ha : hasAssignment st.db site.pk c.id with
      | true => rw [contactStep_skip p st site c h ha]; simp
      | false =>
        rw [contactStep_reuse p st site c h ha]
        by_cases hcl : p.clear_site_fields <;> simp [hcl]
  · cases h : contactFound st.db site with
    | none =>
      rw [contactStep_create p st site h, contactSkips_of_found_none h]
      simp
    | some c =>
      rw [contactSkips_of_found h]
      cases ha : hasAssignment st.db site.pk c.id with
      | true => rw [contactStep_skip p st site c h ha]; simp
      | false => rw [contactStep_reuse p st site c h ha]; simp
  · cases hf : asnFound st2.db n with
    | none =>
      rw [asnStep_create q st2 site2 n hn hf, asnSkips_of_found_none hn hf]
      by_cases hcl : q.clear_site_field <;> simp [hcl]
    | some a =>
      rw [asnSkips_of_found hn hf]
      cases hl : hasSiteASNLink st2.db site2.pk a.id with
      | true => rw [asnStep_skip q st2 site2 n a hn hf hl]; simp
      | false =>
        rw [asnStep_reuse q st2 site2 n a hn hf hl]
        by_cases hcl : q.clear_site_field <;> simp [hcl]
  · cases hf : asnFound st2.db n with
    | none =>
      rw [asnStep_create q st2 site2 n hn hf, asnSkips_of_found_none hn hf]
      simp
    | some a =>
      rw [asnSkips_of_found hn hf]
      cases hl : hasSiteASNLink st2.db site2.pk a.id with
      | true => rw [asnStep_skip q st2 site2 n a hn hf hl]; simp
      | false => rw [asnStep_reuse q st2 site2 n a hn hf hl]; simp

/-- Witness fixture: a contact row with every field populated. -/
def wContactX : ContactRec := { id := 0, name := "Jane", phone := "555", email := "j@x" }

/-- Witness fixture: a site whose phone strips to empty, so its derived key
contains only the name. -/
def wSiteJ : SiteRec :=
  { pk := 4, contact_name := " Jane ", contact_phone := " ", contact_email := "", asn := none }

/-- Witness fixture: a database holding `wContactX` and `wSiteJ`. -/
def wDBJ : DB :=
  { sites := [wSiteJ], contacts := [wContactX], assignments := [], asns := [],
    siteASNLinks := [], nextContactId := 1, nextASNId := 0 }

/-- Witness for C4 on concrete data: `wSiteJ`'s key is name-only, and the
lookup matches `wContactX` although its phone and email are populated. -/
theorem lookup_constrains_only_key_fields_witness :
    (contactKeyMatches wContactX { name := "Jane", phone := none, email := none } = true ↔
      (wContactX.name = "Jane" ∧
        (∀ p, (none : Option String) = some p → wContactX.phone = p) ∧
        (∀ e, (none : Option String) = some e → wContactX.email = e))) ∧
    contactKeyMatches wContactX (getContactData wSiteJ) = true :=
  lookup_constrains_only_key_fields wContactX
    { name := "Jane", phone := none, email := none } wDBJ wSiteJ wContactX (by decide)

/-- Witness fixture: a site carrying legacy contact data. -/
def wSite : SiteRec :=
  { pk := 1, contact_name := "A", contact_phone := "", contact_email := "", asn := none }

/-- Witness fixture: the contact matching `wSite`'s key. -/
def wContact : ContactRec := { id := 0, name := "A", phone := "", email := "" }

/-- Witness fixture: a database where `wSite` is already linked to
`wContact`, so its iteration takes the skip path. -/
def wDBskip : DB :=
  { sites := [wSite], contacts := [wContact],
    assignments := [{ site_pk := 1, contact_id := 0, role := 1, priority := "" }],
    asns := [], siteASNLinks := [], nextContactId := 1, nextASNId := 0 }

/-- Witness fixture: loop state over `wDBskip`. -/
def wStSkip : RunState := { db := wDBskip, created := 0, linked := 0, logs := [] }

/-- Witness fixture: contact-script parameters with clearing enabled. -/
def wP : ContactParams :=
  { contact_role := 1, contact_priority := "", clear_site_fields := true }

/-- Witness fixture: a site carrying a legacy ASN. -/
def wSiteA : SiteRec :=
  { pk := 2, contact_name := "", contact_phone := "", contact_email := "", asn := some 65001 }

/-- Witness fixture: a database where `wSiteA`'s ASN does not exist yet. -/
def wDBasn : DB :=
  { sites := [wSiteA], contacts := [], assignments := [], asns := [],
    siteASNLinks := [], nextContactId := 0, nextASNId := 0 }

/-- Witness fixture: loop state over `wDBasn`. -/
def wStAsn : RunState := { db := wDBasn, created := 0, linked := 0, logs := [] }

/-- Witness fixture: ASN-script parameters with clearing enabled. -/
def wQ : ASNParams := { asn_rir := 7, clear_site_field := true }

/-- Witness for C5 on concrete data: a skip-path contact iteration (flag set,
nothing cleared, no link appended) and a create-path ASN iteration (flag set,
row cleared, one link appended). -/
theorem clear_iff_flag_and_link_created_witness :
    ((contactStep wP wStSkip wSite).db.sites =
      if wP.clear_site_fields = true ∧ contactSkips wStSkip.db wSite = false
      then clearContactFields wStSkip.db.sites wSite.pk else wStSkip.db.sites) ∧
    ((contactStep wP wStSkip wSite).db.assignments.length =
      wStSkip.db.assignments.length +
        (if contactSkips wStSkip.db wSite = true then 0 else 1)) ∧
    ((asnStep wQ wStAsn wSiteA).db.sites =
      if wQ.clear_site_field = true ∧ asnSkips wStAsn.db wSiteA = false
      then clearASNField wStAsn.db.sites wSiteA.pk else wStAsn.db.sites) ∧
    ((asnStep wQ wStAsn wSiteA).db.siteASNLinks.length =
      wStAsn.db.siteASNLinks.length +
        (if asnSkips wStAsn.db wSiteA = true then 0 else 1)) :=
  clear_iff_flag_and_link_created wP wQ wStSkip wStAsn wSite wSiteA (by decide)

/-- C9: when an iteration of the contact script clears legacy fields (flag
set, link created), the stored site table is rewritten row-for-row: rows
whose pk equals the processed site's pk get all three legacy contact fields
set to the empty string (including fields that were already empty or were
omitted from the key) with `pk` and `asn` untouched, and rows with any other
pk are left exactly as they were. -/
theorem clearing_targets_only_site_pk (p : ContactParams) (st : RunState)
    (site : SiteRec) (i : Nat) (hf : p.clear_site_fields = true)
    (hns : contactSkips st.db site = false) :
    (contactStep p st site).db.sites[i]? =
      (st.db.sites[i]?).map (fun t =>
        if t.pk == site.pk then
          { t with contact_name := "", contact_phone := "", contact_email := "" }
        else t) := by
  have hsites : (contactStep p st site).db.sites =
      clearContactFields st.db.sites site.pk := by
    cases h : contactFound st.db site with
    | none =>
      rw [contactStep_create p st site h]
      simp [hf]
    | some c =>
      cases ha : hasAssignment st.db site.pk c.id with
      | true =>
        rw [contactSkips_of_found h, ha] at hns
        cases hns
      | false =>
        rw [contactStep_reuse p st site c h ha]
        simp [hf]
  rw [hsites]
  unfold clearContactFields
  rw [List.getElem?_map]

/-- Witness fixture: a second site with a different pk and populated fields. -/
def wSiteB : SiteRec :=
  { pk := 3, contact_name := "B", contact_phone := "x", contact_email := "y", asn := some 9 }

/-- Witness fixture: a database with two sites and no contacts, so `wSite`'s
iteration takes the create path. -/
def wDBtwo : DB :=
  { sites := [wSite, wSiteB], contacts := [], assignments := [], asns := [],
    siteASNLinks := [], nextContactId := 0, nextASNId := 0 }

/-- Witness fixture: loop state over `wDBtwo`. -/
def wStTwo : RunState := { db := wDBtwo, created := 0, linked := 0, logs := [] }

/-- Witness for C9 on concrete data: clearing after `wSite`'s create-path
iteration rewrites row 1 (`wSiteB`, different pk) to itself. -/
theorem clearing_targets_only_site_pk_witness :
    (contactStep wP wStTwo wSite).db.sites[1]? =
      (wStTwo.db.sites[1]?).map (fun t =>
        if t.pk == wSite.pk then
          { t with contact_name := "", contact_phone := "", contact_email := "" }
        else t) :=
  clearing_targets_only_site_pk wP wStTwo wSite 1 (by decide) (by decide)

/-- Database well-formedness: auto-increment freshness of contact ids. -/
def WFContacts (db : DB) : Prop := ∀ c ∈ db.contacts, c.id < db.nextContactId

/-- Database well-formedness: auto-increment freshness of ASN ids. -/
def WFASNs (db : DB) : Prop := ∀ a ∈ db.asns, a.id < db.nextASNId

/-- One contact-loop iteration preserves id freshness and the pair-count
invariant: the number of assignment rows for a fixed (site pk, contact id)
pair either is still the initial count, or is the initial count plus one
with the pair now present and its contact id already allocated. -/
lemma contactStep_pair (p : ContactParams) (st : RunState) (site : SiteRec)
    (pk cid n0 : Nat) (hwf : WFContacts st.db)
    (hj : st.db.assignments.countP (assignPairP pk cid) = n0 ∨
      (st.db.assignments.countP (assignPairP pk cid) = n0 + 1 ∧
        hasAssignment st.db pk cid = true ∧ cid < st.db.nextContactId)) :
    WFContacts (contactStep p st site).db ∧
    ((contactStep p st site).db.assignments.countP (assignPairP pk cid) = n0 ∨
      ((contactStep p st site).db.assignments.countP (assignPairP pk cid) = n0 + 1 ∧
        hasAssignment (contactStep p st site).db pk cid = true ∧
        cid < (contactStep p st site).db.nextContactId)) := by
  cases h : contactFound st.db site with
  | none =>
    rw [contactStep_create p st site h]
    constructor
    · intro c hc
      rcases List.mem_append.mp hc with hc | hc
      · exact Nat.lt_succ_of_lt (hwf c hc)
      · rw [List.mem_singleton] at hc
        subst hc
        exact Nat.lt_succ_self _
    · by_cases hp : assignPairP pk cid
        { site_pk := site.pk, contact_id := st.db.nextContactId,
          role := p.contact_role, priority := p.contact_priority } = true
      · have hcid : cid = st.db.nextContactId := by
          unfold assignPairP at hp
          simp at hp
          exact hp.2.symm
        rcases hj with hj | ⟨-, -, hlt⟩
        · right
          refine ⟨?_, ?_, ?_⟩
          · simp [List.countP_append, List.countP_cons, hp, hj]
          · unfold hasAssignment
            simp [List.any_append, hp]
          · rw [hcid]
            exact Nat.lt_succ_self _
        · exact absurd hcid (Nat.ne_of_lt hlt)
      · rcases hj with hj | ⟨hj, hmem, hlt⟩
        · left
          simp [List.countP_append, List.countP_cons, hp, hj]
        · right
          refine ⟨by simp [List.countP_append, List.countP_cons, hp, hj], ?_,
            Nat.lt_succ_of_lt hlt⟩
          unfold hasAssignment at hmem ⊢
          simp [List.any_append]
          simp at hmem
          exact Or.inl hmem
  | some c =>
    cases ha : hasAssignment st.db site.pk c.id with
    | true =>
      rw [contactStep_skip p st site c h ha]
      exact ⟨hwf, hj⟩
    | false =>
      rw [contactStep_reuse p st site c h ha]
      refine ⟨hwf, ?_⟩
      by_cases hp : assignPairP pk cid
        { site_pk := site.pk, contact_id := c.id,
          role := p.contact_role, priority := p.contact_priority } = true
      · have hpk : site.pk = pk ∧ c.id = cid := by
          unfold assignPairP at hp
          simpa using hp
        have hfalse : hasAssignment st.db pk cid = false := by
          rw [← hpk.1, ← hpk.2]
          exact ha
        rcases hj with hj | ⟨-, hmem, -⟩
        · right
          refine ⟨by simp [List.countP_append, List.countP_cons, hp, hj], ?_, ?_⟩
          · unfold hasAssignment
            simp [List.any_append, hp]
          · rw [← hpk.2]
            exact hwf c (List.mem_of_find?_eq_some
              (show List.find? (fun x => contactKeyMatches x (getContactData site))
                st.db.contacts = some c from h))
        · rw [hmem] at hfalse
          cases hfalse
      · rcases hj with hj | ⟨hj, hmem, hlt⟩
        · left
          simp [List.countP_append, List.countP_cons, hp, hj]
        · right
          refine ⟨by simp [List.countP_append, List.countP_cons, hp, hj], ?_, hlt⟩
          unfold hasAssignment at hmem ⊢
          simp [List.any_append]
          simp at hmem
          exact Or.inl hmem

/-- One ASN-loop iteration preserves id freshness and the pair-count
invariant for a fixed (site pk, ASN id) pair. -/
lemma asnStep_pair (q : ASNParams) (st : RunState) (site : SiteRec)
    (pk aid n0 : Nat) (hwf : WFASNs st.db)
    (hj : st.db.siteASNLinks.countP (linkPairP pk aid) = n0 ∨
      (st.db.siteASNLinks.countP (linkPairP pk aid) = n0 + 1 ∧
        hasSiteASNLink st.db pk aid = true ∧ aid < st.db.nextASNId)) :
    WFASNs (asnStep q st site).db ∧
    ((asnStep q st site).db.siteASNLinks.countP (linkPairP pk aid) = n0 ∨
      ((asnStep q st site).db.siteASNLinks.countP (linkPairP pk aid) = n0 + 1 ∧
        hasSiteASNLink (asnStep q st site).db pk aid = true ∧
        aid < (asnStep q st site).db.nextASNId)) := by
  cases hn : site.asn with
  | none =>
    rw [asnStep_nolegacy q st site hn]
    exact ⟨hwf, hj⟩
  | some n =>
    cases hf : asnFound st.db n with
    | none =>
      rw [asnStep_create q st site n hn hf]
      constructor
      · intro a ha
        rcases List.mem_append.mp ha with ha | ha
        · exact Nat.lt_succ_of_lt (hwf a ha)
        · rw [List.mem_singleton] at ha
          subst ha
          exact Nat.lt_succ_self _
      · by_cases hp : linkPairP pk aid
          { site_pk := site.pk, asn_id := st.db.nextASNId } = true
        · have haid : aid = st.db.nextASNId := by
            unfold linkPairP at hp
            simp at hp
            exact hp.2.symm
          rcases hj with hj | ⟨-, -, hlt⟩
          · right
            refine ⟨?_, ?_, ?_⟩
            · simp [List.countP_append, List.countP_cons, hp, hj]
            · unfold hasSiteASNLink
              simp [List.any_append, hp]
            · rw [haid]
              exact Nat.lt_succ_self _
          · exact absurd haid (Nat.ne_of_lt hlt)
        · rcases hj with hj | ⟨hj, hmem, hlt⟩
          · left
            simp [List.countP_append, List.countP_cons, hp, hj]
          · right
            refine ⟨by simp [List.countP_append, List.countP_cons, hp, hj], ?_,
              Nat.lt_succ_of_lt hlt⟩
            unfold hasSiteASNLink at hmem ⊢
            simp [List.any_append]
            simp at hmem
            exact Or.inl hmem
    | some a =>
      cases hl : hasSiteASNLink st.db site.pk a.id with
      | true =>
        rw [asnStep_skip q st site n a hn hf hl]
        exact ⟨hwf, hj⟩
      | false =>
        rw [asnStep_reuse q st site n a hn hf hl]
        refine ⟨hwf, ?_⟩
        by_cases hp : linkPairP pk aid { site_pk := site.pk, asn_id := a.id } = true
        · have hpk : site.pk = pk ∧ a.id = aid := by
            unfold linkPairP at hp
            simpa using hp
          have hfalse : hasSiteASNLink st.db pk aid = false := by
            rw [← hpk.1, ← hpk.2]
            exact hl
          rcases hj with hj | ⟨-, hmem, -⟩
          · right
            refine ⟨by simp [List.countP_append, List.countP_cons, hp, hj], ?_, ?_⟩
            · unfold hasSiteASNLink
              simp [List.any_append, hp]
            · rw [← hpk.2]
              exact hwf a (List.mem_of_find?_eq_some
                (show List.find? (fun x => x.asn == n) st.db.asns = some a from hf))
          · rw [hmem] at hfalse
            cases hfalse
        · rcases hj with hj | ⟨hj, hmem, hlt⟩
          · left
            simp [List.countP_append, List.countP_cons, hp, hj]
          · right
            refine ⟨by simp [List.countP_append, List.countP_cons, hp, hj], ?_, hlt⟩
            unfold hasSiteASNLink at hmem ⊢
            simp [List.any_append]
            simp at hmem
            exact Or.inl hmem

/-- Folding the contact loop adds at most one assignment row per pair. -/
lemma contactsFold_pair (p : ContactParams) (pk cid n0 : Nat) :
    ∀ (l : List SiteRec) (st : RunState),
      WFContacts st.db →
      (st.db.assignments.countP (assignPairP pk cid) = n0 ∨
        (st.db.assignments.countP (assignPairP pk cid) = n0 + 1 ∧
          hasAssignment st.db pk cid = true ∧ cid < st.db.nextContactId)) →
      (l.foldl (contactStep p) st).db.assignments.countP (assignPairP pk cid) ≤ n0 + 1 := by
  intro l
  induction l with
  | nil =>
    intro st _ hj
    rcases hj with hj | ⟨hj, -⟩
    · rw [List.foldl_nil, hj]
      exact Nat.le_succ n0
    · rw [List.foldl_nil, hj]
  | cons a l ih =>
    intro st hwf hj
    rw [List.foldl_cons]
    obtain ⟨hwf2, hj2⟩ := contactStep_pair p st a pk cid n0 hwf hj
    exact ih _ hwf2 hj2

/-- Folding the ASN loop adds at most one m2m row per pair. -/
lemma asnsFold_pair (q : ASNParams) (pk aid n0 : Nat) :
    ∀ (l : List SiteRec) (st : RunState),
      WFASNs st.db →
      (st.db.siteASNLinks.countP (linkPairP pk aid) = n0 ∨
        (st.db.siteASNLinks.countP (linkPairP pk aid) = n0 + 1 ∧
          hasSiteASNLink st.db pk aid = true ∧ aid < st.db.nextASNId)) →
      (l.foldl (asnStep q) st).db.siteASNLinks.countP (linkPairP pk aid) ≤ n0 + 1 := by
  intro l
  induction l with
  | nil =>
    intro st _ hj
    rcases hj with hj | ⟨hj, -⟩
    · rw [List.foldl_nil, hj]
      exact Nat.le_succ n0
    · rw [List.foldl_nil, hj]
  | cons a l ih =>
    intro st hwf hj
    rw [List.foldl_cons]
    obtain ⟨hwf2, hj2⟩ := asnStep_pair q st a pk aid n0 hwf hj
    exact ih _ hwf2 hj2

/-- C2: throughout any run of either script, at most one link is created for
any given (source site, canonical record) pair: the number of
ContactAssignment rows (resp. Site-ASN m2m rows) carrying a fixed pair grows
by at most one over the whole run (given auto-increment id freshness), and
whenever the canonical record was reused and a link for the pair already
exists, the iteration leaves the state untouched except for appending one
info-level skip log. -/
theorem link_created_at_most_once_per_pair (p : ContactParams) (q : ASNParams)
    (db dbA : DB) (pk cid pk2 aid : Nat) (st st2 : RunState) (s s2 : SiteRec)
    (hwc : WFContacts db) (hwa : WFASNs dbA)
    (hs : contactSkips st.db s = true) (hs2 : asnSkips st2.db s2 = true) :
    (contactsRun p db).db.assignments.countP (assignPairP pk cid) ≤
      db.assignments.countP (assignPairP pk cid) + 1 ∧
    (asnsRun q dbA).db.siteASNLinks.countP (linkPairP pk2 aid) ≤
      dbA.siteASNLinks.countP (linkPairP pk2 aid) + 1 ∧
    contactStep p st s = { st with logs := st.logs ++ [Ev.contactsSkip] } ∧
    asnStep q st2 s2 = { st2 with logs := st2.logs ++ [Ev.asnsSkip] } := by
  refine ⟨?_, ?_, ?_, ?_⟩
  · by_cases h : selectedContactSites db = []
    · rw [contactsRun_of_empty p db h]
      exact Nat.le_succ _
    · rw [contactsRun_of_nonempty p db h]
      exact contactsFold_pair p pk cid (db.assignments.countP (assignPairP pk cid))
        (selectedContactSites db) (contactsInit db) hwc (Or.inl rfl)
  · by_cases h : selectedASNSites dbA = []
    · rw [asnsRun_of_empty q dbA h]
      exact Nat.le_succ _
    · rw [asnsRun_of_nonempty q dbA h]
      exact asnsFold_pair q pk2 aid (dbA.siteASNLinks.countP (linkPairP pk2 aid))
        (selectedASNSites dbA) (asnsInit dbA) hwa (Or.inl rfl)
  · obtain ⟨c, hf, ha⟩ := contactSkips_spec hs
    exact contactStep_skip p st s c hf ha
  · obtain ⟨n, a, hn, hf, hl⟩ := asnSkips_spec hs2
    exact asnStep_skip q st2 s2 n a hn hf hl

/-- Witness fixture: the ASN object matching `wSiteA`'s legacy number. -/
def wASN : ASNRec := { id := 0, asn := 65001, rir := 7 }

/-- Witness fixture: a database where `wSiteA` is already linked to `wASN`,
so its iteration takes the skip path. -/
def wDBasnSkip : DB :=
  { sites := [wSiteA], contacts := [], assignments := [], asns := [wASN],
    siteASNLinks := [{ site_pk := 2, asn_id := 0 }], nextContactId := 0, nextASNId := 1 }

/-- Witness fixture: loop state over `wDBasnSkip`. -/
def wStAsnSkip : RunState := { db := wDBasnSkip, created := 0, linked := 0, logs := [] }

/-- Witness for C2 on concrete data: a run over a pre-linked pair adds no row
for it, and both skip-path iterations only log. -/
theorem link_created_at_most_once_per_pair_witness :
    (contactsRun wP wDBskip).db.assignments.countP (assignPairP 1 0) ≤
      wDBskip.assignments.countP (assignPairP 1 0) + 1 ∧
    (asnsRun wQ wDBasnSkip).db.siteASNLinks.countP (linkPairP 2 0) ≤
      wDBasnSkip.siteASNLinks.countP (linkPairP 2 0) + 1 ∧
    contactStep wP wStSkip wSite =
      { wStSkip with logs := wStSkip.logs ++ [Ev.contactsSkip] } ∧
    asnStep wQ wStAsnSkip wSiteA =
      { wStAsnSkip with logs := wStAsnSkip.logs ++ [Ev.asnsSkip] } :=
  link_created_at_most_once_per_pair wP wQ wDBskip wDBasnSkip 1 0 2 0
    wStSkip wStAsnSkip wSite wSiteA (by unfold WFContacts; decide)
    (by unfold WFASNs; decide) (by decide) (by decide)

/-- Row predicate on ASNs for a fixed AS number (the ASN migration's
canonical key). -/
def asnNumP (n : Nat) (a : ASNRec) : Bool := a.asn == n

/-- If the contact the script would create from key `dk` is counted by
`createdContactP d`, then every contact counted by `createdContactP d`
matches the key `dk`. -/
lemma createdP_matches (d dk : ContactData) (c : ContactRec) (i : Nat)
    (hnew : createdContactP d
      { id := i, name := dk.name, phone := dk.phone.getD "",
        email := dk.email.getD "" } = true)
    (hc : createdContactP d c = true) :
    contactKeyMatches c dk = true := by
  obtain ⟨nm, ph, em⟩ := dk
  simp only [createdContactP, Bool.and_eq_true, beq_iff_eq] at hnew hc
  obtain ⟨⟨hn1, hp1⟩, he1⟩ := hnew
  obtain ⟨⟨hn2, hp2⟩, he2⟩ := hc
  have hname : c.name = nm := by rw [hn2, ← hn1]
  cases ph with
  | none =>
    cases em with
    | none => simp [contactKeyMatches, hname]
    | some e =>
      have he : c.email = e := by rw [he2, ← he1]; rfl
      simp [contactKeyMatches, hname, he]
  | some ph0 =>
    have hph : c.phone = ph0 := by rw [hp2, ← hp1]; rfl
    cases em with
    | none => simp [contactKeyMatches, hname, hph]
    | some e =>
      have he : c.email = e := by rw [he2, ← he1]; rfl
      simp [contactKeyMatches, hname, hph, he]

/-- One contact-loop iteration adds at most the first row counted by a fixed
created-record predicate: the count can only grow past the bound on a create
whose key matches, and then the pre-state count was zero. -/
lemma contactStep_key_count (p : ContactParams) (st : RunState) (site : SiteRec)
    (d : ContactData) (n0 : Nat)
    (hb : st.db.contacts.countP (createdContactP d) ≤ n0 + 1) :
    (contactStep p st site).db.contacts.countP (createdContactP d) ≤ n0 + 1 := by
  cases h : contactFound st.db site with
  | some c =>
    cases ha : hasAssignment st.db site.pk c.id with
    | true => rw [contactStep_skip p st site c h ha]; exact hb
    | false => rw [contactStep_reuse p st site c h ha]; exact hb
  | none =>
    rw [contactStep_create p st site h]
    by_cases hp : createdContactP d
        { id := st.db.nextContactId, name := (getContactData site).name,
          phone := (getContactData site).phone.getD "",
          email := (getContactData site).email.getD "" } = true
    · have hz : st.db.contacts.countP (createdContactP d) = 0 := by
        rw [List.countP_eq_zero]
        intro c hc hcP
        have hmatch : contactKeyMatches c (getContactData site) = true :=
          createdP_matches d (getContactData site) c st.db.nextContactId hp hcP
        exact List.find?_eq_none.mp
          (show List.find? (fun x => contactKeyMatches x (getContactData site))
            st.db.contacts = none from h) c hc hmatch
      rw [List.countP_append, hz]
      simp [List.countP_cons, hp]
    · rw [List.countP_append]
      simpa [List.countP_cons, hp] using hb

/-- Folding the contact loop preserves the created-record count bound. -/
lemma contactsFold_key_count (p : ContactParams) (d : ContactData) (n0 : Nat) :
    ∀ (l : List SiteRec) (st : RunState),
      st.db.contacts.countP (createdContactP d) ≤ n0 + 1 →
      (l.foldl (contactStep p) st).db.contacts.countP (createdContactP d) ≤ n0 + 1 := by
  intro l
  induction l with
  | nil => intro st hb; exact hb
  | cons a l ih =>
    intro st hb
    rw [List.foldl_cons]
    exact ih _ (contactStep_key_count p st a d n0 hb)

/-- Across a whole contact run, at most one of the newly appended contact
rows carries any fixed created-record attribute triple. -/
lemma contactsRun_key_count (p : ContactParams) (db : DB) (d : ContactData) :
    ((contactsRun p db).db.contacts.drop db.contacts.length).countP
      (createdContactP d) ≤ 1 := by
  by_cases h : selectedContactSites db = []
  · rw [contactsRun_of_empty p db h]
    simp [List.drop_length]
  · have hbound := contactsFold_key_count p d (db.contacts.countP (createdContactP d))
      (selectedContactSites db) (contactsInit db) (Nat.le_succ _)
    obtain ⟨tl, htl⟩ := (contactsFold_append p (selectedContactSites db) (contactsInit db)).1
    simp only [contactsInit] at htl hbound
    rw [contactsRun_of_nonempty p db h]
    show ((contactsFoldState p db).db.contacts.drop db.contacts.length).countP
      (createdContactP d) ≤ 1
    unfold contactsFoldState contactsInit
    rw [htl, List.drop_left]
    rw [htl, List.countP_append] at hbound
    omega

/-- One ASN-loop iteration adds at most the first row counted by a fixed
AS-number predicate. -/
lemma asnStep_num_count (q : ASNParams) (st : RunState) (site : SiteRec)
    (n n0 : Nat)
    (hb : st.db.asns.countP (asnNumP n) ≤ n0 + 1) :
    (asnStep q st site).db.asns.countP (asnNumP n) ≤ n0 + 1 := by
  cases hsn : site.asn with
  | none => rw [asnStep_nolegacy q st site hsn]; exact hb
  | some m =>
    cases hf : asnFound st.db m with
    | some a =>
      cases hl : hasSiteASNLink st.db site.pk a.id with
      | true => rw [asnStep_skip q st site m a hsn hf hl]; exact hb
      | false => rw [asnStep_reuse q st site m a hsn hf hl]; exact hb
    | none =>
      rw [asnStep_create q st site m hsn hf]
      by_cases hp : asnNumP n { id := st.db.nextASNId, asn := m, rir := q.asn_rir } = true
      · have hmn : m = n := by
          unfold asnNumP at hp
          simpa using hp
        have hz : st.db.asns.countP (asnNumP n) = 0 := by
          rw [List.countP_eq_zero]
          intro a ha haP
          have han : a.asn = n := by
            unfold asnNumP at haP
            simpa using haP
          refine List.find?_eq_none.mp
            (show List.find? (fun x => x.asn == m) st.db.asns = none from hf) a ha ?_
          simp [han, hmn]
        rw [List.countP_append, hz]
        simp [List.countP_cons, hp]
      · rw [List.countP_append]
        simpa [List.countP_cons, hp] using hb

/-- Folding the ASN loop preserves the AS-number count bound. -/
lemma asnsFold_num_count (q : ASNParams) (n n0 : Nat) :
    ∀ (l : List SiteRec) (st : RunState),
      st.db.asns.countP (asnNumP n) ≤ n0 + 1 →
      (l.foldl (asnStep q) st).db.asns.countP (asnNumP n) ≤ n0 + 1 := by
  intro l
  induction l with
  | nil => intro st hb; exact hb
  | cons a l ih =>
    intro st hb
    rw [List.foldl_cons]
    exact ih _ (asnStep_num_count q st a n n0 hb)

/-- Across a whole ASN run, at most one of the newly appended ASN rows
carries any fixed AS number. -/
lemma asnsRun_num_count (q : ASNParams) (db : DB) (n : Nat) :
    ((asnsRun q db).db.asns.drop db.asns.length).countP (asnNumP n) ≤ 1 := by
  by_cases h : selectedASNSites db = []
  · rw [asnsRun_of_empty q db h]
    simp [List.drop_length]
  · have hbound := asnsFold_num_count q n (db.asns.countP (asnNumP n))
      (selectedASNSites db) (asnsInit db) (Nat.le_succ _)
    obtain ⟨tl, htl⟩ := (asnsFold_append q (selectedASNSites db) (asnsInit db)).1
    simp only [asnsInit] at htl hbound
    rw [asnsRun_of_nonempty q db h]
    show ((asnsFoldState q db).db.asns.drop db.asns.length).countP (asnNumP n) ≤ 1
    unfold asnsFoldState asnsInit
    rw [htl, List.drop_left]
    rw [htl, List.countP_append] at hbound
    omega

/-- C3 counterexample: two selected sites share an identical derived key, yet
zero canonical records are created across the whole run, because a matching
contact already exists and is reused — refuting "exactly one canonical
record is created". -/
theorem dedup_exactly_one_cex :
    (let s1 : SiteRec :=
      { pk := 1, contact_name := "A", contact_phone := "", contact_email := "", asn := none };
     let s2 : SiteRec :=
      { pk := 2, contact_name := "A", contact_phone := "", contact_email := "", asn := none };
     let db : DB :=
      { sites := [s1, s2],
        contacts := [{ id := 0, name := "A", phone := "", email := "" }],
        assignments := [], asns := [], siteASNLinks := [],
        nextContactId := 1, nextASNId := 0 };
     let p : ContactParams :=
      { contact_role := 0, contact_priority := "", clear_site_fields := false };
     s1 ∈ selectedContactSites db ∧ s2 ∈ selectedContactSites db ∧
       getContactData s1 = getContactData s2 ∧
       ((contactsRun p db).db.contacts.drop db.contacts.length).countP
         (createdContactP (getContactData s1)) = 0 ∧
       (contactsRun p db).created = 0) := by
  decide

/-- C3 (amended): for every pair of selected source sites with an identical
derived canonical key, at most one canonical record is created across the
whole run; creation happens only when the lookup finds no existing match
(on a lookup hit the canonical table is unchanged), and later sites with the
same key reuse an existing matching record. -/
theorem dedup_at_most_one (p : ContactParams) (q : ASNParams) (db dbA : DB)
    (s1 s2 s3 s4 : SiteRec) (n3 : Nat)
    (st : RunState) (s5 : SiteRec) (st2 : RunState) (s6 : SiteRec) (n6 : Nat)
    (_h1 : s1 ∈ selectedContactSites db) (_h2 : s2 ∈ selectedContactSites db)
    (_hk : getContactData s1 = getContactData s2)
    (_h3 : s3 ∈ selectedASNSites dbA) (_h4 : s4 ∈ selectedASNSites dbA)
    (_hn34 : s3.asn = s4.asn) (_hs3 : s3.asn = some n3)
    (hf5 : contactFound st.db s5 ≠ none)
    (hs6 : s6.asn = some n6) (hf6 : asnFound st2.db n6 ≠ none) :
    ((contactsRun p db).db.contacts.drop db.contacts.length).countP
      (createdContactP (getContactData s1)) ≤ 1 ∧
    ((asnsRun q dbA).db.asns.drop dbA.asns.length).countP (asnNumP n3) ≤ 1 ∧
    (contactStep p st s5).db.contacts = st.db.contacts ∧
    (asnStep q st2 s6).db.asns = st2.db.asns := by
  refine ⟨contactsRun_key_count p db (getContactData s1),
    asnsRun_num_count q dbA n3, ?_, ?_⟩
  · cases h : contactFound st.db s5 with
    | none => exact absurd h hf5
    | some c =>
      cases ha : hasAssignment st.db s5.pk c.id with
      | true => rw [contactStep_skip p st s5 c h ha]
      | false => rw [contactStep_reuse p st s5 c h ha]
  · cases hf : asnFound st2.db n6 with
    | none => exact absurd hf hf6
    | some a =>
      cases hl : hasSiteASNLink st2.db s6.pk a.id with
      | true => rw [asnStep_skip q st2 s6 n6 a hs6 hf hl]
      | false => rw [asnStep_reuse q st2 s6 n6 a hs6 hf hl]

/-- Witness fixture: a second site sharing `wSite`'s derived key. -/
def wSite2 : SiteRec :=
  { pk := 6, contact_name := " A ", contact_phone := "", contact_email := "", asn := none }

/-- Witness fixture: a database with two sites of identical contact key. -/
def wDBdup : DB :=
  { sites := [wSite, wSite2], contacts := [], assignments := [], asns := [],
    siteASNLinks := [], nextContactId := 0, nextASNId := 0 }

/-- Witness fixture: a second site sharing `wSiteA`'s legacy AS number. -/
def wSiteA2 : SiteRec :=
  { pk := 8, contact_name := "", contact_phone := "", contact_email := "", asn := some 65001 }

/-- Witness fixture: a database with two sites of identical legacy ASN. -/
def wDBasnDup : DB :=
  { sites := [wSiteA, wSiteA2], contacts := [], assignments := [], asns := [],
    siteASNLinks := [], nextContactId := 0, nextASNId := 0 }

/-- Witness for the amended C3 on concrete data: two same-key contact sites,
two same-number ASN sites, and two lookup-hit iterations that create
nothing. -/
theorem dedup_at_most_one_witness :
    ((contactsRun wP wDBdup).db.contacts.drop wDBdup.contacts.length).countP
      (createdContactP (getContactData wSite)) ≤ 1 ∧
    ((asnsRun wQ wDBasnDup).db.asns.drop wDBasnDup.asns.length).countP
      (asnNumP 65001) ≤ 1 ∧
    (contactStep wP wStSkip wSite).db.contacts = wStSkip.db.contacts ∧
    (asnStep wQ wStAsnSkip wSiteA).db.asns = wStAsnSkip.db.asns :=
  dedup_at_most_one wP wQ wDBdup wDBasnDup wSite wSite2 wSiteA wSiteA2 65001
    wStSkip wSite wStAsnSkip wSiteA 65001
    (by decide) (by decide) (by decide) (by decide) (by decide) (by decide)
    (by decide) (by decide) (by decide) (by decide)
